import Mathlib

/-!
Shallow embedding of `src/green_rnd_api_company.py` (a FastAPI backend with a
purchaser directory, a verification-code flow and a receipt store), together
with proofs about the embedded operations.

Modelling conventions:
* the two Python dicts `purchasers_db` / `receipts_db` become association
  lists (insertion order is the list order, which matches dict iteration
  order in Python ≥ 3.7);
* `time.time()` becomes an explicit `now : Nat` argument (seconds);
* decimal amounts in receipts become `Rat` (the system never computes with
  them, it only stores and returns them);
* an endpoint that mutates state returns `Except ApiError Unit × State`;
  raising `HTTPException` happens before any mutation in the source, so the
  paired state on the error branch is the input state unchanged;
* `int(...)` conversion that can raise an unhandled `ValueError` is modelled
  by an `Option` layer: `none` means the request dies with an exception that
  is not part of the API error taxonomy.
-/

deriving instance DecidableEq for Except

/-- The error taxonomy of the service: the four `HTTPException` status codes
raised by the endpoints (400, 401, 403, 404). -/
inductive ApiError where
  | badRequest
  | unauthorized
  | forbidden
  | notFound
deriving DecidableEq, Repr

/-- Outcome of the auth middleware: pass the request through, or reject it
with the given HTTP status before any endpoint runs. -/
inductive GateResult where
  | proceed
  | reject (status : Nat)
deriving DecidableEq, Repr

/-- One entry of `purchasers_db`: identity, contact data, the access flag and
the (optional) pending verification code with its expiry time. -/
structure PurchaserRec where
  id : String
  email : String
  phone : String
  access : Bool
  verification_code : Option String
  code_expires_at : Option Nat
deriving DecidableEq, Repr

/-- The `Purchaser` response model: only `{id, access}` (the contact fields
are not part of the response schema). -/
structure Purchaser where
  id : String
  access : Bool
deriving DecidableEq, Repr

/-- One line item of a receipt (`ReceiptItem` response model). -/
structure ReceiptItem where
  name : String
  count : Rat
  price : Rat
deriving DecidableEq, Repr

/-- One receipt (`Receipt` response model); `time` is a timestamp encoded as
a numeric string, as in the source. -/
structure Receipt where
  id : String
  time : String
  items : List ReceiptItem
  total_price : Rat
deriving DecidableEq, Repr

/-- The whole mutable state of the process: both in-memory tables. -/
structure State where
  purchasers : List (String × PurchaserRec)
  receipts : List (String × List Receipt)
deriving DecidableEq, Repr

/-- Dict key lookup (`db[k]` / `k in db`) on the association-list model:
the value stored at the first occurrence of the key. -/
def alookup {α : Type} : List (String × α) → String → Option α
  | [], _ => none
  | (k, v) :: rest, key => if k = key then some v else alookup rest key

/-- Dict value update (`db[k] = v`): replace the value at the key, leaving
every other entry (and the order) unchanged. -/
def aupdate {α : Type} (l : List (String × α)) (key : String) (v : α) :
    List (String × α) :=
  l.map (fun kv => if kv.1 = key then (kv.1, v) else kv)

/-- Python truthiness of an optional string (`if not x`): `None` and the
empty string are falsy, any other string is truthy. -/
def truthyOptStr : Option String → Bool
  | none => false
  | some s => decide (s ≠ "")

/-- The seeded purchaser record `"user1"` of `purchasers_db`. -/
def seedPurchaser : PurchaserRec :=
  { id := "user1"
    email := "user1@example.com"
    phone := "79001234567"
    access := false
    verification_code := none
    code_expires_at := none }

/-- The seeded receipt `"receipt1"` of `receipts_db`. -/
def seedReceipt : Receipt :=
  { id := "receipt1"
    time := "1729686754"
    items := [
      { name := "Джем вишнёвый дой-пак", count := 2.0, price := 64.50 },
      { name := "Куриная грудка охлаждённая", count := 0.980, price := 299.99 }]
    total_price := 402.99 }

/-- The initial state of the process: `purchasers_db` and `receipts_db` as
seeded at startup. -/
def initState : State :=
  { purchasers := [("user1", seedPurchaser)]
    receipts := [("user1", [seedReceipt])] }

/-- The auth middleware `check_auth_token`: reject with 401 when the
`X-Auth-Token` header is missing (`none`), falsy (empty) or of length ≠ 128;
otherwise let the request through. -/
def check_auth_token (auth_token : Option String) : GateResult :=
  if !truthyOptStr auth_token || (auth_token.getD "").length ≠ 128 then
    .reject 401
  else
    .proceed

/-- Whether a purchaser record matches the lookup filters, as in the loop of
`get_purchaser`: `(email and purchaser["email"] == email) or
(phone_number and purchaser["phone"] == phone_number)`. -/
def matchesFilter (email phone_number : Option String) (p : PurchaserRec) : Bool :=
  (truthyOptStr email && decide (p.email = email.getD "")) ||
    (truthyOptStr phone_number && decide (p.phone = phone_number.getD ""))

/-- `GET /purchasers` (`get_purchaser`): 400 when both filters are falsy,
otherwise scan `purchasers_db.values()` in order and return `{id, access}`
of the first match, or 404 when none matches.  Reads only, no state out. -/
def get_purchaser (email phone_number : Option String) (st : State) :
    Except ApiError Purchaser :=
  if !truthyOptStr email && !truthyOptStr phone_number then
    .error .badRequest
  else
    match (st.purchasers.map Prod.snd).find? (matchesFilter email phone_number) with
    | some p => .ok { id := p.id, access := p.access }
    | none => .error .notFound

/-- `POST /purchasers/{id}/grantAccess` (`send_verification_code`): 404 when
the id is unknown; otherwise set `verification_code = "123456"` and
`code_expires_at = now + 300`, unconditionally overwriting any pending code. -/
def send_verification_code (purchaser_id : String) (now : Nat) (st : State) :
    Except ApiError Unit × State :=
  match alookup st.purchasers purchaser_id with
  | none => (.error .notFound, st)
  | some p =>
    let p' : PurchaserRec :=
      { p with verification_code := some "123456", code_expires_at := some (now + 300) }
    (.ok (), { st with purchasers := aupdate st.purchasers purchaser_id p' })

/-- `POST /purchasers/{id}/grantAccess/{code}` (`verify_access_code`): 404
when the id is unknown; 403 when no code is pending (falsy), the supplied
code differs, or `now > code_expires_at`; on success set `access = True` and
clear both verification fields.

When the code is truthy but `code_expires_at` is `None`, the Python source
would raise a `TypeError` on `current_time > None`; that state is
unreachable (the two fields are always set together, see the invariant
theorems below), and the model reads the expiry with `getD 0` there. -/
def verify_access_code (purchaser_id code : String) (now : Nat) (st : State) :
    Except ApiError Unit × State :=
  match alookup st.purchasers purchaser_id with
  | none => (.error .notFound, st)
  | some p =>
    if !truthyOptStr p.verification_code
        || !decide (p.verification_code = some code)
        || decide (now > p.code_expires_at.getD 0) then
      (.error .forbidden, st)
    else
      let p' : PurchaserRec :=
        { p with access := true, verification_code := none, code_expires_at := none }
      (.ok (), { st with purchasers := aupdate st.purchasers purchaser_id p' })

/-- Drop leading whitespace characters. -/
def dropSpaces : List Char → List Char
  | [] => []
  | c :: cs => if c.isWhitespace then dropSpaces cs else c :: cs

/-- The numeric value of a run of ASCII decimal digits. -/
def decDigitsVal (cs : List Char) : Nat :=
  cs.foldl (fun acc c => 10 * acc + (c.toNat - 48)) 0

/-- Sign-and-digits part of `int(str)`: one optional `+`/`-` followed by a
nonempty run of ASCII decimal digits. -/
def parsePyIntChars : List Char → Option Int
  | '-' :: rest =>
    if rest ≠ [] ∧ rest.all Char.isDigit then some (-(decDigitsVal rest : Int))
    else none
  | '+' :: rest =>
    if rest ≠ [] ∧ rest.all Char.isDigit then some (decDigitsVal rest : Int)
    else none
  | cs =>
    if cs ≠ [] ∧ cs.all Char.isDigit then some (decDigitsVal cs : Int)
    else none

/-- CPython `int(str)` on the strings this service sees: strip surrounding
whitespace, allow one optional sign, then require a nonempty run of ASCII
decimal digits; `none` models the `ValueError` raise.  (Underscore digit
separators and non-ASCII digits and spaces, which CPython also accepts, do
not occur in this system's data and are not modelled.) -/
def parsePyInt (s : String) : Option Int :=
  parsePyIntChars ((dropSpaces ((dropSpaces s.data.reverse).reverse)))

/-- The receipts kept by the list comprehension of `get_receipts`: those
whose parsed `time` lies in `[fromTs, toTs]` (inclusive both ends), in
stored order.  Unparseable times are read with `getD 0`; `get_receipts`
only uses this after checking every `time` parses. -/
def receiptsInRange (fromTs toTs : Int) (rs : List Receipt) : List Receipt :=
  rs.filter (fun r =>
    decide (fromTs ≤ (parsePyInt r.time).getD 0 ∧ (parsePyInt r.time).getD 0 ≤ toTs))

/-- `GET /purchasers/{id}/receipts` (`get_receipts`): 404 unknown purchaser;
403 when `access` is false; 404 when the purchaser has no receipt list; then
`int(from)`, `int(to)` and `int(receipt["time"])` — an unparseable string
raises an unhandled `ValueError`, modelled as `none`; finally 404 when the
filtered list is empty, else the filtered list in stored order. -/
def get_receipts (purchaser_id from_time to_time : String) (st : State) :
    Option (Except ApiError (List Receipt)) :=
  match alookup st.purchasers purchaser_id with
  | none => some (.error .notFound)
  | some p =>
    if !p.access then some (.error .forbidden)
    else
      match alookup st.receipts purchaser_id with
      | none => some (.error .notFound)
      | some rs =>
        match parsePyInt from_time, parsePyInt to_time with
        | some fromTs, some toTs =>
          if rs.all (fun r => (parsePyInt r.time).isSome) then
            let filtered := receiptsInRange fromTs toTs rs
            if filtered.isEmpty then some (.error .notFound)
            else some (.ok filtered)
          else none
        | _, _ => none

/-- One request-level transition of the system: each of the four endpoints,
at arbitrary arguments and wall-clock time.  `get_purchaser` and
`get_receipts` perform no assignment in the source, so they relate a state
to itself. -/
inductive Step : State → State → Prop where
  | find (email phone_number : Option String) (st : State) : Step st st
  | issue (purchaser_id : String) (now : Nat) (st : State) :
      Step st (send_verification_code purchaser_id now st).2
  | verify (purchaser_id code : String) (now : Nat) (st : State) :
      Step st (verify_access_code purchaser_id code now st).2
  | list (purchaser_id from_time to_time : String) (st : State) : Step st st

/-- States reachable from the seeded initial state by any sequence of
endpoint calls. -/
inductive Reachable : State → Prop where
  | init : Reachable initState
  | step {st st' : State} : Reachable st → Step st st' → Reachable st'

/-- The §3 invariant on one record: `verification_code` and
`code_expires_at` are both set or both absent. -/
def recInv (p : PurchaserRec) : Prop :=
  p.verification_code.isSome = p.code_expires_at.isSome

/-- The §3 invariant over the whole directory. -/
def stateInv (st : State) : Prop :=
  ∀ kv ∈ st.purchasers, recInv kv.2

/-- The access flag the directory records for a purchaser id (`false` when
the id is unknown). -/
def accessOf (st : State) (purchaser_id : String) : Bool :=
  match alookup st.purchasers purchaser_id with
  | some p => p.access
  | none => false

/-- The state after `grantAccess` is issued for `"user1"` at time 900 and the
right code `"123456"` is redeemed at time 1000 (inside the 300-second
window): `"user1"` has `access = true` and no pending code. -/
def stGranted : State :=
  (verify_access_code "user1" "123456" 1000
    (send_verification_code "user1" 900 initState).2).2

/-- The `"user1"` record right after `send_verification_code` at time 900. -/
def pendingRec : PurchaserRec :=
  { seedPurchaser with verification_code := some "123456", code_expires_at := some 1200 }

/-- The `"user1"` record after a successful redemption. -/
def grantedRec : PurchaserRec :=
  { seedPurchaser with access := true }

/-- The record written back by a successful redemption: `access = True`,
both verification fields cleared. -/
def redeemedRec (p : PurchaserRec) : PurchaserRec :=
  { p with access := true, verification_code := none, code_expires_at := none }

/-- The record written back by `send_verification_code` at time `now`. -/
def issuedRec (p : PurchaserRec) (now : Nat) : PurchaserRec :=
  { p with verification_code := some "123456", code_expires_at := some (now + 300) }

theorem aupdate_cons {α : Type} (k0 : String) (v0 : α) (rest : List (String × α))
    (k : String) (v : α) :
    aupdate ((k0, v0) :: rest) k v =
      (if k0 = k then (k0, v) else (k0, v0)) :: aupdate rest k v := by
  by_cases h : k0 = k <;> simp [aupdate, h]

theorem alookup_aupdate_self {α : Type} (l : List (String × α)) (k : String) (v : α) :
    alookup (aupdate l k v) k = (alookup l k).map (fun _ => v) := by
  induction l with
  | nil => rfl
  | cons kv rest ih =>
    obtain ⟨k0, v0⟩ := kv
    rw [aupdate_cons]
    by_cases h : k0 = k
    · rw [if_pos h]; subst h; simp [alookup]
    · rw [if_neg h]; simp [alookup, h, ih]

theorem alookup_aupdate_ne {α : Type} (l : List (String × α)) (k q : String) (v : α)
    (h : q ≠ k) :
    alookup (aupdate l k v) q = alookup l q := by
  induction l with
  | nil => rfl
  | cons kv rest ih =>
    obtain ⟨k0, v0⟩ := kv
    rw [aupdate_cons]
    by_cases hk : k0 = k
    · rw [if_pos hk]; subst hk
      simp [alookup, Ne.symm h, ih]
    · rw [if_neg hk]
      by_cases hq : k0 = q <;> simp [alookup, hq, ih]

theorem mem_aupdate {α : Type} {l : List (String × α)} {k : String} {v : α}
    {kv : String × α} (h : kv ∈ aupdate l k v) : kv.2 = v ∨ kv ∈ l := by
  unfold aupdate at h
  rcases List.mem_map.1 h with ⟨a, ha, rfl⟩
  by_cases hk : a.1 = k <;> simp [hk, ha]


/-- C7: the auth gate lets a request through exactly when the `X-Auth-Token`
header is present and its length is exactly 128; a missing header or any
other length is rejected with the unauthorized status before any endpoint
runs, and content is otherwise ignored. -/
theorem auth_gate_length_only (auth_token : Option String) :
    check_auth_token auth_token = .proceed ↔
      ∃ t, auth_token = some t ∧ t.length = 128 := by
  cases auth_token with
  | none => simp [check_auth_token, truthyOptStr]
  | some t =>
    by_cases h : t = ""
    · subst h
      simp [check_auth_token, truthyOptStr]
    · by_cases hl : t.length = 128 <;>
        simp [check_auth_token, truthyOptStr, h, hl]

/-- Witness: a 128-character token is accepted. -/
theorem auth_gate_length_only_witness :
    check_auth_token (some (String.mk (List.replicate 128 'x'))) = .proceed :=
  (auth_gate_length_only _).2 ⟨_, rfl, by simp [String.length]⟩

/-- C1: for a purchaser present in the directory with a pending verification
code that has not expired, redeeming that code succeeds, sets
`access = true`, clears both `verification_code` and `code_expires_at`, and
redeeming the same code again (at any time) fails with `Forbidden`: the
code is single-use. -/
theorem verify_pending_code_success (st : State) (purchaser_id c : String)
    (p : PurchaserRec) (e now : Nat)
    (hp : alookup st.purchasers purchaser_id = some p)
    (hcode : p.verification_code = some c) (hc : c ≠ "")
    (hexp : p.code_expires_at = some e) (hnow : now ≤ e) :
    (verify_access_code purchaser_id c now st).1 = .ok () ∧
      ∃ p', alookup (verify_access_code purchaser_id c now st).2.purchasers purchaser_id
          = some p' ∧
        p'.access = true ∧ p'.verification_code = none ∧ p'.code_expires_at = none ∧
        ∀ now' : Nat,
          (verify_access_code purchaser_id c now'
            (verify_access_code purchaser_id c now st).2).1 = .error .forbidden := by
  have hcond : ¬((!truthyOptStr p.verification_code
      || !decide (p.verification_code = some c)
      || decide (now > p.code_expires_at.getD 0)) = true) := by
    simp [hcode, hexp, truthyOptStr, hc]
    omega
  have hverify : verify_access_code purchaser_id c now st
      = (.ok (), { st with
          purchasers := aupdate st.purchasers purchaser_id (redeemedRec p) }) := by
    simp only [verify_access_code, hp]
    rw [if_neg hcond]
    rfl
  have hlook2 : alookup (aupdate st.purchasers purchaser_id (redeemedRec p))
      purchaser_id = some (redeemedRec p) := by
    rw [alookup_aupdate_self, hp]
    rfl
  have hlook : alookup (verify_access_code purchaser_id c now st).2.purchasers
      purchaser_id = some (redeemedRec p) := by
    rw [hverify]
    exact hlook2
  refine ⟨by rw [hverify], ⟨redeemedRec p, hlook, rfl, rfl, rfl, ?_⟩⟩
  intro now'
  rw [hverify]
  simp only [redeemedRec] at hlook2
  simp [verify_access_code, hlook2, truthyOptStr, redeemedRec]

/-- Witness: issue for `"user1"` at time 900, redeem `"123456"` at time 1000
(within the window) succeeds and grants access. -/
theorem verify_pending_code_success_witness :
    (verify_access_code "user1" "123456" 1000
      (send_verification_code "user1" 900 initState).2).1 = .ok () ∧
    accessOf stGranted "user1" = true :=
  ⟨(verify_pending_code_success _ "user1" "123456" pendingRec 1200 1000
      (by decide) (by decide) (by decide) (by decide) (by decide)).1,
    by decide⟩

/-- C2: with the purchaser present (a record satisfying the pending-code
invariant and whose pending code, if any, is a nonempty string — all
reachable records are such), redemption fails with `Forbidden` iff no code
is pending, the supplied code differs from the pending one, or the current
time exceeds `code_expires_at`; every `Forbidden` failure leaves the state
(hence the record: `access`, pending code and expiry) unchanged; and a
redemption attempted more than 300 seconds after issuing fails with
`Forbidden` even with the right code `"123456"`. -/
theorem verify_forbidden_iff (st : State) (purchaser_id c : String) (p : PurchaserRec)
    (now : Nat) (hp : alookup st.purchasers purchaser_id = some p)
    (hinv : recInv p) (hne : p.verification_code ≠ some "") :
    ((verify_access_code purchaser_id c now st).1 = .error .forbidden ↔
      (p.verification_code = none ∨ p.verification_code ≠ some c ∨
        ∃ e, p.code_expires_at = some e ∧ now > e)) ∧
    ((verify_access_code purchaser_id c now st).1 = .error .forbidden →
      (verify_access_code purchaser_id c now st).2 = st) ∧
    (∀ t0 t1 : Nat, t0 + 300 < t1 →
      (verify_access_code purchaser_id "123456" t1
        (send_verification_code purchaser_id t0 st).2).1 = .error .forbidden) := by
  refine ⟨?_, ?_, ?_⟩
  · cases hvc : p.verification_code with
    | none =>
      have hex : p.code_expires_at = none := by
        unfold recInv at hinv
        rw [hvc] at hinv
        cases hexp : p.code_expires_at with
        | none => rfl
        | some e => rw [hexp] at hinv; simp at hinv
      simp [verify_access_code, hp, hvc, truthyOptStr, hex]
    | some s =>
      have hs : s ≠ "" := by
        intro hemp
        exact hne (hemp ▸ hvc)
      obtain ⟨e, hex⟩ : ∃ e, p.code_expires_at = some e := by
        unfold recInv at hinv
        rw [hvc] at hinv
        cases hexp : p.code_expires_at with
        | none => rw [hexp] at hinv; simp at hinv
        | some e => exact ⟨e, rfl⟩
      by_cases hsc : s = c
      · subst hsc
        by_cases ht : now > e <;>
          simp [verify_access_code, hp, hvc, hex, truthyOptStr, hs, ht]
      · simp [verify_access_code, hp, hvc, hex, truthyOptStr, hs, hsc]
  · intro hf
    cases hcond : (!truthyOptStr p.verification_code
        || !decide (p.verification_code = some c)
        || decide (now > p.code_expires_at.getD 0)) with
    | true => simp [verify_access_code, hp, hcond]
    | false => simp [verify_access_code, hp, hcond] at hf
  · intro t0 t1 ht
    have hsend : alookup (send_verification_code purchaser_id t0 st).2.purchasers
        purchaser_id = some (issuedRec p t0) := by
      simp [send_verification_code, hp, alookup_aupdate_self, issuedRec]
    have htr : truthyOptStr (some "123456") = true := by decide
    simp [verify_access_code, hsend, htr, ht, issuedRec]

/-- Witness: after issuing at time 900, the wrong code `"000000"` at time
1000 is `Forbidden` and the state is untouched. -/
theorem verify_forbidden_iff_witness :
    (verify_access_code "user1" "000000" 1000
      (send_verification_code "user1" 900 initState).2).1 = .error .forbidden ∧
    (verify_access_code "user1" "000000" 1000
      (send_verification_code "user1" 900 initState).2).2
      = (send_verification_code "user1" 900 initState).2 := by
  have h := verify_forbidden_iff (send_verification_code "user1" 900 initState).2
    "user1" "000000" pendingRec 1000 (by decide) (by rfl) (by decide)
  have hf := h.1.2 (Or.inr (Or.inl (by decide)))
  exact ⟨hf, h.2.1 hf⟩

/-- C10: issuing and redeeming a code for `purchaser_id` leave every other
purchaser's entry and the whole receipt table unchanged.  (`get_purchaser`
and `get_receipts` are embedded as functions of the state returning only a
response — the source handlers perform no assignment — so they modify no
state by construction.) -/
theorem ops_frame (st : State) (purchaser_id c q : String) (now now' : Nat)
    (hq : q ≠ purchaser_id) :
    alookup (send_verification_code purchaser_id now st).2.purchasers q
        = alookup st.purchasers q ∧
    (send_verification_code purchaser_id now st).2.receipts = st.receipts ∧
    alookup (verify_access_code purchaser_id c now' st).2.purchasers q
        = alookup st.purchasers q ∧
    (verify_access_code purchaser_id c now' st).2.receipts = st.receipts := by
  refine ⟨?_, ?_, ?_, ?_⟩
  · cases hp : alookup st.purchasers purchaser_id <;>
      simp [send_verification_code, hp, alookup_aupdate_ne _ _ _ _ hq]
  · cases hp : alookup st.purchasers purchaser_id <;>
      simp [send_verification_code, hp]
  · cases hp : alookup st.purchasers purchaser_id
    · simp [verify_access_code, hp]
    · simp only [verify_access_code, hp]
      split <;> simp [alookup_aupdate_ne _ _ _ _ hq]
  · cases hp : alookup st.purchasers purchaser_id
    · simp [verify_access_code, hp]
    · simp only [verify_access_code, hp]
      split <;> simp

/-- Witness: issuing and redeeming for `"user1"` do not touch the entry of
another id nor the receipt table. -/
theorem ops_frame_witness :
    alookup (send_verification_code "user1" 900 initState).2.purchasers "user2"
        = alookup initState.purchasers "user2" ∧
    (verify_access_code "user1" "123456" 1000 initState).2.receipts
        = initState.receipts := by
  have h := ops_frame initState "user1" "123456" "user2" 900 1000 (by decide)
  exact ⟨h.1, h.2.2.2⟩

theorem send_state_none (s : State) (pid : String) (now : Nat)
    (h : alookup s.purchasers pid = none) :
    (send_verification_code pid now s).2 = s := by
  simp [send_verification_code, h]

theorem send_state_some (s : State) (pid : String) (now : Nat) (p : PurchaserRec)
    (h : alookup s.purchasers pid = some p) :
    (send_verification_code pid now s).2.purchasers
        = aupdate s.purchasers pid (issuedRec p now)
      ∧ (send_verification_code pid now s).2.receipts = s.receipts := by
  constructor <;> simp [send_verification_code, h, issuedRec]

theorem verify_state_cases (s : State) (pid code : String) (now : Nat) :
    (verify_access_code pid code now s).2 = s ∨
    ∃ p, alookup s.purchasers pid = some p ∧
      (verify_access_code pid code now s).2.purchasers
          = aupdate s.purchasers pid (redeemedRec p)
      ∧ (verify_access_code pid code now s).2.receipts = s.receipts := by
  cases hsome : alookup s.purchasers pid with
  | none => left; simp [verify_access_code, hsome]
  | some p =>
    cases hcond : (!truthyOptStr p.verification_code
        || !decide (p.verification_code = some code)
        || decide (now > p.code_expires_at.getD 0)) with
    | true =>
      left
      simp only [verify_access_code, hsome]
      rw [if_pos hcond]
    | false =>
      right
      refine ⟨p, rfl, ?_, ?_⟩ <;>
      · simp only [verify_access_code, hsome]
        rw [if_neg (by simp [hcond])]
        try rfl

theorem stateInv_send (st : State) (pid : String) (now : Nat) (h : stateInv st) :
    stateInv (send_verification_code pid now st).2 := by
  cases hsome : alookup st.purchasers pid with
  | none => rw [send_state_none st pid now hsome]; exact h
  | some p =>
    intro kv hkv
    rw [(send_state_some st pid now p hsome).1] at hkv
    rcases mem_aupdate hkv with hv | hv
    · rw [hv]; rfl
    · exact h kv hv

theorem stateInv_verify (st : State) (pid code : String) (now : Nat) (h : stateInv st) :
    stateInv (verify_access_code pid code now st).2 := by
  rcases verify_state_cases st pid code now with heq | ⟨p, hsome, heq, _⟩
  · rw [heq]; exact h
  · intro kv hkv
    rw [heq] at hkv
    rcases mem_aupdate hkv with hv | hv
    · rw [hv]; rfl
    · exact h kv hv

/-- C3: in every reachable state, every purchaser record has
`verification_code` and `code_expires_at` both set or both null; issuing
sets both together, a successful redemption clears both together, and no
endpoint ever sets or clears just one of them. -/
theorem code_and_expiry_together (st : State) (h : Reachable st) : stateInv st := by
  induction h with
  | init =>
    intro kv hkv
    simp only [initState, List.mem_singleton] at hkv
    rw [hkv]
    rfl
  | step hr hstep ih =>
    cases hstep with
    | find _ _ => exact ih
    | list _ _ _ => exact ih
    | issue pid now => exact stateInv_send _ pid now ih
    | verify pid code now => exact stateInv_verify _ pid code now ih

/-- Witness: the invariant holds in the seeded initial state. -/
theorem code_and_expiry_together_witness : stateInv initState :=
  code_and_expiry_together initState Reachable.init

theorem accessOf_send_mono (s : State) (pid q : String) (now : Nat)
    (hacc : accessOf s q = true) :
    accessOf (send_verification_code pid now s).2 q = true := by
  cases hsome : alookup s.purchasers pid with
  | none => rw [send_state_none s pid now hsome]; exact hacc
  | some p =>
    unfold accessOf at hacc ⊢
    rw [(send_state_some s pid now p hsome).1]
    by_cases hq : q = pid
    · subst hq
      rw [alookup_aupdate_self, hsome]
      rw [hsome] at hacc
      simpa [issuedRec] using hacc
    · rw [alookup_aupdate_ne _ _ _ _ hq]
      exact hacc

theorem accessOf_verify_mono (s : State) (pid code q : String) (now : Nat)
    (hacc : accessOf s q = true) :
    accessOf (verify_access_code pid code now s).2 q = true := by
  rcases verify_state_cases s pid code now with heq | ⟨p, hsome, heq, _⟩
  · rw [heq]; exact hacc
  · unfold accessOf at hacc ⊢
    rw [heq]
    by_cases hq : q = pid
    · subst hq
      rw [alookup_aupdate_self, hsome]
      simp [redeemedRec]
    · rw [alookup_aupdate_ne _ _ _ _ hq]
      exact hacc

theorem accessOf_step_mono {st st' : State} (h : Step st st') (q : String)
    (hacc : accessOf st q = true) : accessOf st' q = true := by
  cases h with
  | find _ _ => exact hacc
  | list _ _ _ => exact hacc
  | issue pid now => exact accessOf_send_mono _ pid q now hacc
  | verify pid code now => exact accessOf_verify_mono _ pid code q now hacc

/-- C8: along any sequence of endpoint calls, once a purchaser's `access`
is true it stays true — only a successful redemption flips it, to true, and
no endpoint ever resets it — and in the seeded initial state `access` is
false for every id. -/
theorem access_never_revoked (st st' : State)
    (h : Relation.ReflTransGen Step st st') (q : String)
    (hacc : accessOf st q = true) :
    accessOf st' q = true ∧ ∀ r, accessOf initState r = false := by
  constructor
  · induction h with
    | refl => exact hacc
    | tail hab hbc ih => exact accessOf_step_mono hbc q ih
  · intro r
    by_cases hr : "user1" = r <;>
      simp [accessOf, initState, alookup, hr, seedPurchaser]

/-- Witness: from the granted state, one more issue step keeps `access`
true for `"user1"`. -/
theorem access_never_revoked_witness :
    accessOf (send_verification_code "user1" 2000 stGranted).2 "user1" = true ∧
    ∀ r, accessOf initState r = false :=
  access_never_revoked stGranted (send_verification_code "user1" 2000 stGranted).2
    (Relation.ReflTransGen.single (Step.issue "user1" 2000 stGranted)) "user1" (by decide)

/-- C4: for a purchaser with access granted and a stored receipt list, with
both bounds parsing as integers and every stored receipt time parsing, the
endpoint returns exactly the receipts whose numeric time lies in
`[fromTs, toTs]` (inclusive both ends), in stored order, and 404 when that
filtered list is empty; a receipt of the list is kept iff its numeric time
is in range. -/
theorem receipts_range_filter (st : State) (purchaser_id from_time to_time : String)
    (p : PurchaserRec) (rs : List Receipt) (fromTs toTs : Int)
    (hp : alookup st.purchasers purchaser_id = some p) (hacc : p.access = true)
    (hrs : alookup st.receipts purchaser_id = some rs)
    (hf : parsePyInt from_time = some fromTs) (ht : parsePyInt to_time = some toTs)
    (htimes : rs.all (fun r => (parsePyInt r.time).isSome) = true) :
    (receiptsInRange fromTs toTs rs ≠ [] →
      get_receipts purchaser_id from_time to_time st
        = some (.ok (receiptsInRange fromTs toTs rs))) ∧
    (receiptsInRange fromTs toTs rs = [] →
      get_receipts purchaser_id from_time to_time st = some (.error .notFound)) ∧
    ∀ r ∈ rs, (r ∈ receiptsInRange fromTs toTs rs ↔
      fromTs ≤ (parsePyInt r.time).getD 0 ∧ (parsePyInt r.time).getD 0 ≤ toTs) := by
  refine ⟨?_, ?_, ?_⟩
  · intro hne
    simp [get_receipts, hp, hacc, hrs, hf, ht, htimes, hne]
  · intro hemp
    simp [get_receipts, hp, hacc, hrs, hf, ht, htimes, hemp]
  · intro r hr
    unfold receiptsInRange
    simp [List.mem_filter, hr]

/-- Witness: for seeded `user1` with access granted, the range
`[1729686754, 1729686754]` returns exactly the seeded receipt, and the
range `[0, 100]` is 404. -/
theorem receipts_range_filter_witness :
    get_receipts "user1" "1729686754" "1729686754" stGranted
        = some (.ok [seedReceipt]) ∧
    get_receipts "user1" "0" "100" stGranted = some (.error .notFound) := by
  constructor
  · have h := (receipts_range_filter stGranted "user1" "1729686754" "1729686754"
      grantedRec [seedReceipt] 1729686754 1729686754 (by decide) (by decide)
      (by rfl) (by decide) (by decide) (by decide)).1 (by decide)
    rw [h]
    rfl
  · exact (receipts_range_filter stGranted "user1" "0" "100" grantedRec [seedReceipt]
      0 100 (by decide) (by decide) (by rfl) (by decide) (by decide) (by decide)).2.1
      (by decide)

/-- C5 counterexample: in the reachable granted state, `user1` is a known
purchaser with access granted and a receipt list — none of the enumerated
error conditions applies — yet with the bound `from = "abc"` the request
yields no API error and no success list either: the unguarded `int("abc")`
raise escapes (result `none`), refuting "succeeds with a non-empty list in
all remaining cases" as stated. -/
theorem receipts_error_order_counterexample :
    accessOf stGranted "user1" = true ∧
    alookup stGranted.receipts "user1" = some [seedReceipt] ∧
    get_receipts "user1" "abc" "100" stGranted = none := by
  refine ⟨by decide, by rfl, by rfl⟩

/-- C5 (amended): the receipts endpoint reports exactly one error chosen by
first-applicable order — unknown purchaser → 404; then access false → 403
whatever the bounds; then no receipt list → 404; then empty filtered result
→ 404 — and succeeds with the non-empty filtered list in all remaining
cases in which both bounds are decimal-integer strings (with an unparseable
bound the unguarded conversion raises instead; see the counterexample). -/
theorem receipts_error_order (st : State) (purchaser_id from_time to_time : String) :
    (alookup st.purchasers purchaser_id = none →
      get_receipts purchaser_id from_time to_time st = some (.error .notFound)) ∧
    (∀ p, alookup st.purchasers purchaser_id = some p → p.access = false →
      get_receipts purchaser_id from_time to_time st = some (.error .forbidden)) ∧
    (∀ p, alookup st.purchasers purchaser_id = some p → p.access = true →
      alookup st.receipts purchaser_id = none →
      get_receipts purchaser_id from_time to_time st = some (.error .notFound)) ∧
    (∀ p rs fromTs toTs, alookup st.purchasers purchaser_id = some p →
      p.access = true → alookup st.receipts purchaser_id = some rs →
      parsePyInt from_time = some fromTs → parsePyInt to_time = some toTs →
      rs.all (fun r => (parsePyInt r.time).isSome) = true →
      (receiptsInRange fromTs toTs rs = [] →
        get_receipts purchaser_id from_time to_time st = some (.error .notFound)) ∧
      (receiptsInRange fromTs toTs rs ≠ [] →
        get_receipts purchaser_id from_time to_time st
          = some (.ok (receiptsInRange fromTs toTs rs))
        ∧ receiptsInRange fromTs toTs rs ≠ [])) := by
  refine ⟨?_, ?_, ?_, ?_⟩
  · intro h
    simp [get_receipts, h]
  · intro p hp ha
    simp [get_receipts, hp, ha]
  · intro p hp ha hr
    simp [get_receipts, hp, ha, hr]
  · intro p rs fromTs toTs hp ha hr hf ht htimes
    refine ⟨fun hemp => by simp [get_receipts, hp, ha, hr, hf, ht, htimes, hemp],
      fun hne => ⟨by simp [get_receipts, hp, ha, hr, hf, ht, htimes, hne], hne⟩⟩

/-- Witness: unknown id → 404; `user1` before any grant → 403. -/
theorem receipts_error_order_witness :
    get_receipts "ghost" "0" "1" initState = some (.error .notFound) ∧
    get_receipts "user1" "0" "1" initState = some (.error .forbidden) :=
  ⟨(receipts_error_order initState "ghost" "0" "1").1 (by decide),
    (receipts_error_order initState "user1" "0" "1").2.1 seedPurchaser
      (by decide) (by decide)⟩

/-- C9: the granted state is reachable through the public interface, and in
it a receipts request for the known, access-granted `user1` whose `from`
parameter is not a decimal-integer string produces neither a success nor
any of the four API error classes: the unguarded `int(from)` conversion
raises (modelled by `none`), so its failure branch is reachable. -/
theorem receipts_unparsed_bound_crash :
    Reachable stGranted ∧
    accessOf stGranted "user1" = true ∧
    get_receipts "user1" "not-a-number" "10" stGranted = none := by
  refine ⟨?_, by decide, by decide⟩
  exact Reachable.step
    (Reachable.step Reachable.init (Step.issue "user1" 900 initState))
    (Step.verify "user1" "123456" 1000 _)

/-- C6: with any supplied filter a nonempty string (as real contact values
are; the source treats an empty string like an absent parameter), the
lookup fails with `BadRequest` when neither filter is supplied; otherwise
it scans the directory in insertion order and answers with only
`{id, access}` of the first record whose email equals the given email OR
whose phone equals the given phone number (a match on either field
suffices when both are given), and it fails with `NotFound` exactly when
no record matches. -/
theorem find_purchaser_spec (email phone_number : Option String) (st : State)
    (he : email ≠ some "") (hpn : phone_number ≠ some "") :
    (email = none ∧ phone_number = none →
      get_purchaser email phone_number st = .error .badRequest) ∧
    ((email ≠ none ∨ phone_number ≠ none) →
      get_purchaser email phone_number st =
        (match (st.purchasers.map Prod.snd).find? (matchesFilter email phone_number) with
         | some p => .ok { id := p.id, access := p.access }
         | none => .error .notFound)) ∧
    ((email ≠ none ∨ phone_number ≠ none) →
      (get_purchaser email phone_number st = .error .notFound ↔
        ∀ p ∈ st.purchasers.map Prod.snd,
          matchesFilter email phone_number p = false)) := by
  have hte : ∀ s, email = some s → truthyOptStr email = true := by
    intro s hs
    subst hs
    have hs' : s ≠ "" := fun h => he (by rw [h])
    simp [truthyOptStr, hs']
  have htp : ∀ s, phone_number = some s → truthyOptStr phone_number = true := by
    intro s hs
    subst hs
    have hs' : s ≠ "" := fun h => hpn (by rw [h])
    simp [truthyOptStr, hs']
  have hcond : (email ≠ none ∨ phone_number ≠ none) →
      (!truthyOptStr email && !truthyOptStr phone_number) = false := by
    intro hsup
    rcases hsup with h | h
    · cases hmail : email with
      | none => exact absurd hmail h
      | some s =>
        have hs' : s ≠ "" := fun hh => he (by rw [hmail, hh])
        simp [truthyOptStr, hs']
    · cases hph : phone_number with
      | none => exact absurd hph h
      | some s =>
        have hs' : s ≠ "" := fun hh => hpn (by rw [hph, hh])
        simp [truthyOptStr, hs']
  have heq : (email ≠ none ∨ phone_number ≠ none) →
      get_purchaser email phone_number st =
        (match (st.purchasers.map Prod.snd).find? (matchesFilter email phone_number) with
         | some p => .ok { id := p.id, access := p.access }
         | none => .error .notFound) := by
    intro hsup
    simp only [get_purchaser]
    rw [if_neg (by simp [hcond hsup])]
  refine ⟨?_, heq, ?_⟩
  · rintro ⟨h1, h2⟩
    subst h1
    subst h2
    simp [get_purchaser, truthyOptStr]
  · intro hsup
    rw [heq hsup]
    cases hfind : (st.purchasers.map Prod.snd).find? (matchesFilter email phone_number) with
    | none =>
      constructor
      · intro _ p hp'
        have hnp := List.find?_eq_none.1 hfind p hp'
        simpa using hnp
      · intro _
        rfl
    | some p =>
      have hpa := List.find?_some hfind
      have hpm := List.mem_of_find?_eq_some hfind
      constructor
      · intro hcontra
        exact Except.noConfusion hcontra
      · intro hall
        rw [hall p hpm] at hpa
        exact Bool.noConfusion hpa

/-- Witness: lookup by the seeded email answers `{id := "user1",
access := false}` exposing no contact fields, and a request with neither
filter is 400. -/
theorem find_purchaser_spec_witness :
    get_purchaser (some "user1@example.com") none initState
        = .ok { id := "user1", access := false } ∧
    get_purchaser none none initState = .error .badRequest := by
  constructor
  · rw [(find_purchaser_spec (some "user1@example.com") none initState
      (by decide) (by decide)).2.1 (Or.inl (by decide))]
    decide
  · exact (find_purchaser_spec none none initState (by decide) (by decide)).1 ⟨rfl, rfl⟩
